import Mathlib

set_option maxRecDepth 100000

/-!
Shallow embedding of the `@wiki3-ai/webllm-chat-kernel` federation module
(`src/federation.ts`, final revision in `src/src/ChatHttpKernel.ts`) and its
model catalog (`src/src/models.ts`).

JavaScript strings are Lean `String`s; JavaScript exceptions are `Except String`;
the mutable per-kernel chat session (`WebLLMChatKernel`'s private fields) is the
explicit record `ChatSession` threaded through the operations; the asynchronous
model stream is the list of text fragments it yields, in arrival order.
-/

namespace WebLLMKernel

/-- The static model catalog, `WEBLLM_MODELS` from `src/models.ts`. -/
def WEBLLM_MODELS : List String :=
  [ "SmolLM2-360M-Instruct-q4f16_1-MLC",
    "TinyLlama-1.1B-Chat-v1.0-q4f16_1-MLC-1k",
    "Llama-3.2-3B-Instruct-q4f16_1-MLC",
    "Mistral-7B-Instruct-v0.3-q4f16_1-MLC" ]

/-- The hardcoded default model, `DEFAULT_WEBLLM_MODEL` from `src/models.ts`. -/
def DEFAULT_WEBLLM_MODEL : String := "Llama-3.2-3B-Instruct-q4f16_1-MLC"

/-- Modelled from the spec: `isValidWebLLMModel` is imported from `./models.js`
in `federation.ts` but its definition is not among the provided sources; the
spec (§6 Model catalog) says "static enumerated list of model identifiers ...
both the magic command and the programmatic switch validate against it", so it
is membership in the static catalog. -/
def isValidWebLLMModel (name : String) : Bool :=
  WEBLLM_MODELS.contains name

/-- Module-level `settingsDefaultModel` fallback: `getDefaultModel` from
`federation.ts` (`settingsDefaultModel ?? DEFAULT_WEBLLM_MODEL`). -/
def getDefaultModel (settingsDefaultModel : Option String) : String :=
  settingsDefaultModel.getD DEFAULT_WEBLLM_MODEL

/-- One `updateSettings` call from the plugin `activate` function: the raw
`settings.get("defaultModel").composite` value (absent modelled as `none`) is
stored only when truthy (non-empty) and a valid catalog member; otherwise the
previously stored value is kept. -/
def updateSettings (raw : Option String) (stored : Option String) : Option String :=
  match raw with
  | some m => if m ≠ "" ∧ isValidWebLLMModel m = true then some m else stored
  | none => stored

/-- The stored `settingsDefaultModel` after a sequence of settings-change
notifications, starting from its initial `null`. -/
def runSettings (raws : List (Option String)) : Option String :=
  raws.foldl (fun st r => updateSettings r st) none

/-- The opaque handle produced by `webLLM(modelName, ...)`: it is bound to the
model name it was constructed with. -/
structure ModelHandle where
  name : String
deriving DecidableEq, Repr

/-- The private fields of a `WebLLMChatKernel` instance:
`modelName`, `model` and `initialized`. -/
structure ChatSession where
  modelName : Option String
  model : Option ModelHandle
  initialized : Bool
deriving DecidableEq, Repr

/-- The `WebLLMChatKernel` constructor: model initialization is deferred, all
fields start out `null` / `false`. -/
def newSession : ChatSession :=
  { modelName := none, model := none, initialized := false }

/-- `WebLLMChatKernel.initializeModel`: validate against the static catalog,
then bind all three session fields to the new model. -/
def initializeModel (_s : ChatSession) (modelName : String) : Except String ChatSession :=
  if isValidWebLLMModel modelName = false then
    .error ("Invalid model: " ++ modelName ++ ". Use %ai model to see available models.")
  else
    .ok { modelName := some modelName
          model := some { name := modelName }
          initialized := true }

/-- `WebLLMChatKernel.setModel`: own validity check (message without the
trailing hint), remember `wasInitialized`, reinitialize, report
"set" vs "changed". The unused `s` on the error path mirrors the method
throwing before any mutation. -/
def setModel (s : ChatSession) (modelName : String) : Except String (String × ChatSession) :=
  if isValidWebLLMModel modelName = false then
    .error ("Invalid model: " ++ modelName)
  else
    match initializeModel s modelName with
    | .error e => .error e
    | .ok s' =>
      if s.initialized then
        .ok ("Model changed to: " ++ modelName, s')
      else
        .ok ("Model set to: " ++ modelName, s')

/-- `WebLLMChatKernel.getModelName`. -/
def getModelName (s : ChatSession) : Option String :=
  s.modelName

/-- `WebLLMChatKernel.isInitialized`. -/
def isInitialized (s : ChatSession) : Bool :=
  s.initialized

/-- The `availability()` answers of the underlying model runtime. -/
inductive Availability
  | available
  | downloadable
  | downloading
  | unavailable
deriving DecidableEq, Repr

/-- The behavior of the opaque model runtime during one `send` call: its
availability answer, the fragments its text stream yields in arrival order,
and an optional failure raised by the stream after those fragments. -/
structure ModelBehavior where
  availability : Availability
  fragments : List String
  streamError : Option String
deriving DecidableEq, Repr

/-- Result of one `send` call: the arguments passed to `onChunk` in call
order, the return value or thrown message, the session state afterwards, and
the name of the model handle the streaming request was issued against. -/
structure SendResult where
  chunks : List String
  outcome : Except String String
  session : ChatSession
  modelUsed : Option String
deriving Repr

/-- The `for await (const chunk of result.textStream)` loop body of `send`:
`reply += chunk; if (onChunk) onChunk(chunk)`, folded over the arriving
fragments; returns the `onChunk` call list and the accumulated reply. -/
def streamLoop : List String → List String → String → List String × String
  | [], calls, reply => (calls, reply)
  | c :: rest, calls, reply => streamLoop rest (calls ++ [c]) (reply ++ c)

/-- The lazy-initialization guard opening `send`: initialize with the
resolved default when not initialized or without a handle, otherwise keep
the session as it is. -/
def sendInit (settingsDefaultModel : Option String) (s : ChatSession) :
    Except String ChatSession :=
  if !s.initialized || s.model.isNone then
    initializeModel s (getDefaultModel settingsDefaultModel)
  else
    .ok s

/-- The availability check and streaming phase of `send`, on the session
`s'` holding the handle the request is issued against. -/
def sendStream (b : ModelBehavior) (s' : ChatSession) : SendResult :=
  let used := s'.model.map ModelHandle.name
  match b.availability with
  | .unavailable =>
    { chunks := [], outcome := .error "Browser does not support WebLLM / WebGPU."
      session := s', modelUsed := used }
  | _ =>
    let lr := streamLoop b.fragments [] ""
    match b.streamError with
    | some e =>
      { chunks := lr.1, outcome := .error e, session := s', modelUsed := used }
    | none =>
      { chunks := lr.1, outcome := .ok lr.2, session := s', modelUsed := used }

/-- `WebLLMChatKernel.send(prompt, onChunk)`: lazy initialization with the
resolved default when uninitialized or without a handle, availability check,
optional blocking download (progress only, no observable result here), then
the streaming loop. The `prompt` is passed through to the model runtime whose
behavior `b` already describes the resulting stream. -/
def send (settingsDefaultModel : Option String) (b : ModelBehavior)
    (s : ChatSession) (_prompt : String) : SendResult :=
  match sendInit settingsDefaultModel s with
  | .error e =>
    { chunks := [], outcome := .error e, session := s, modelUsed := none }
  | .ok s' => sendStream b s'

/-- JavaScript `String.prototype.trim`, modelled on the character list
(`Char.isWhitespace` plays the role of the JS whitespace class). -/
def jsTrim (s : String) : String :=
  ⟨List.reverse (List.dropWhile Char.isWhitespace
    (List.reverse (List.dropWhile Char.isWhitespace s.data)))⟩

/-- Helper for `splitWs`: accumulate the current (reversed) token while
scanning the character list, emitting a token at each whitespace run. -/
def splitWsAux : List Char → List Char → List String
  | [], cur => if cur.isEmpty then [] else [⟨cur.reverse⟩]
  | c :: rest, cur =>
    if Char.isWhitespace c then
      (if cur.isEmpty then splitWsAux rest [] else ⟨cur.reverse⟩ :: splitWsAux rest [])
    else
      splitWsAux rest (c :: cur)

/-- Split a string into its maximal whitespace-free tokens. -/
def splitWs (s : String) : List String :=
  splitWsAux s.data []

/-- The test of the regex `^%ai\s+model\s+(\S+)$` against the already-trimmed
command line: on a string without leading or trailing whitespace it matches
exactly when the whitespace-separated tokens are `%ai`, `model` and one
further whitespace-free name, which is the captured group. -/
def parseModelCmd (trimmed : String) : Option String :=
  match splitWs trimmed with
  | ["%ai", "model", name] => some name
  | _ => none

/-- The fixed text returned for `%ai` / `%ai help`. -/
def helpText : String :=
  "WebLLM Chat Kernel Magic Commands:\n\n  %ai model          - Show current model and list available models\n  %ai model <name>   - Switch to a different model\n  %ai help           - Show this help message\n\nThe model is initialized on first cell execution using the default from Settings.\nAfter initialization, use \"%ai model <name>\" to switch models."

/-- The part of the `%ai model` report that follows the status line: the
template tail `\n\nAvailable models (showing first 20 of ${WEBLLM_MODELS.length}):\n  ${modelList}\n  ...\n\nUse "%ai model <name>" to switch models.`
with `modelList = WEBLLM_MODELS.slice(0, 20).join("\n  ")`. -/
def modelsTail : String :=
  "\n\nAvailable models (showing first 20 of " ++ toString WEBLLM_MODELS.length
    ++ "):\n  " ++ String.intercalate "\n  " (WEBLLM_MODELS.take 20)
    ++ "\n  ...\n\nUse \"%ai model <name>\" to switch models."

/-- The status line of the `%ai model` report: the current model when
initialized (JS interpolation renders a null name as "null"), otherwise the
not-yet-initialized message with the resolved default. -/
def statusOf (settingsDefaultModel : Option String) (s : ChatSession) : String :=
  if s.initialized then
    "Current model: " ++ (match s.modelName with | some n => n | none => "null")
  else
    "Model not yet initialized. Default: " ++ getDefaultModel settingsDefaultModel

/-- The full text returned for `%ai model` / `%ai models`. -/
def magicModelsText (settingsDefaultModel : Option String) (s : ChatSession) : String :=
  statusOf settingsDefaultModel s ++ modelsTail

/-- `WebLLMLiteKernel.handleMagic`: trim the code, recognize the three magic
forms in source order, answer `none` for everything else. A failing
`setModel` is caught and rethrown with the hint appended. -/
def handleMagic (settingsDefaultModel : Option String) (s : ChatSession)
    (code : String) : Except String (Option String × ChatSession) :=
  let trimmed := jsTrim code
  if trimmed = "%ai model" ∨ trimmed = "%ai models" then
    .ok (some (magicModelsText settingsDefaultModel s), s)
  else
    match parseModelCmd trimmed with
    | some modelName =>
      match setModel s modelName with
      | .ok (result, s') => .ok (some result, s')
      | .error msg => .error (msg ++ "\n\nUse \"%ai model\" to see available models.")
    | none =>
      if trimmed = "%ai" ∨ trimmed = "%ai help" then
        .ok (some helpText, s)
      else
        .ok (none, s)

/-- One event published on the kernel's IOPub side during `executeRequest`:
either a `stream` message on stdout or a `publishExecuteError`. -/
inductive StreamEvent
  | stdout (text : String)
  | executeError (ename evalue : String) (traceback : List String)
deriving DecidableEq, Repr

/-- Discriminator for published events: `true` exactly on
`publishExecuteError` events. -/
def isErrorEvent : StreamEvent → Bool
  | .executeError _ _ _ => true
  | .stdout _ => false

/-- The reply value of `executeRequest` (the execution count, empty payload
and empty user expressions are omitted as constants). -/
inductive ExecReply
  | ok
  | error (ename evalue : String) (traceback : List String)
deriving DecidableEq, Repr

/-- Everything observable about one `executeRequest` call: the published
events in order, the returned reply, and the chat session afterwards. -/
structure ExecOutcome where
  events : List StreamEvent
  reply : ExecReply
  session : ChatSession
deriving Repr

/-- The tail of `executeRequest` after the magic check returned `null`:
stream every chunk as stdout, and on failure publish one error event and
return the matching error reply. -/
def sendOutcome (r : SendResult) : ExecOutcome :=
  match r.outcome with
  | .ok _ =>
    { events := r.chunks.map StreamEvent.stdout, reply := .ok, session := r.session }
  | .error msg =>
    { events := r.chunks.map StreamEvent.stdout ++ [.executeError "Error" msg []]
      reply := .error "Error" msg []
      session := r.session }

/-- `WebLLMLiteKernel.executeRequest`: magic commands first (their text goes
out as a single stdout stream event with a trailing newline), otherwise the
code is sent to the model with a per-chunk stdout callback; any thrown error
is caught, published as one error event, and returned as the error reply. -/
def executeRequest (settingsDefaultModel : Option String) (b : ModelBehavior)
    (s : ChatSession) (code : String) : ExecOutcome :=
  match handleMagic settingsDefaultModel s code with
  | .ok (some magicResult, s') =>
    { events := [.stdout (magicResult ++ "\n")], reply := .ok, session := s' }
  | .ok (none, s') =>
    sendOutcome (send settingsDefaultModel b s' code)
  | .error msg =>
    { events := [.executeError "Error" msg []]
      reply := .error "Error" msg []
      session := s }

/-! Federation container and shared-registry resolver (`importShared`,
`container` from `federation.ts`). A JavaScript value flowing out of a shared
module factory is modelled by `JVal`: a plain exports object (identified by a
number), a then-able (promise) wrapping a value, or a callable returning a
value. JavaScript `await` collapses chains of then-ables; an invocation
unwraps exactly one `func` layer. -/

/-- A JavaScript value returned by a shared-module factory. -/
inductive JVal
  | obj (id : Nat)
  | promise (v : JVal)
  | func (v : JVal)
deriving DecidableEq, Repr

/-- The `result && typeof result.then === 'function'` test: only a promise is
then-able (plain exports objects and functions have no `then` method). -/
def isThenable : JVal → Bool
  | .promise _ => true
  | _ => false

/-- The `typeof result === 'function'` test. -/
def isCallable : JVal → Bool
  | .func _ => true
  | _ => false

/-- JavaScript `await`: resolves a then-able, collapsing nested then-ables,
and leaves any other value unchanged. -/
def awaitJ : JVal → JVal
  | .promise v => awaitJ v
  | v => v

/-- Invocation of a callable value; on a non-callable this is never reached
by the resolver (guarded by `isCallable`). -/
def invokeJ : JVal → JVal
  | .func v => v
  | v => v

/-- The two-step normalization at the end of `importShared`: await the
factory result if it is then-able, then invoke it if the (possibly awaited)
value is callable. -/
def normalizeModule (result : JVal) : JVal :=
  let r1 := if isThenable result then awaitJ result else result
  if isCallable r1 then invokeJ r1 else r1

/-- One version entry of a shared-scope package: `Object.keys` enumeration
pairs the version key with the version object, whose optional `get` factory
is modelled by the value it returns when called (`none` when `version?.get`
is not a function). -/
structure ScopeVersion where
  key : String
  factory : Option JVal
deriving Repr

/-- The shared scope: package name to version entries in enumeration order. -/
structure SharedScope where
  entries : List (String × List ScopeVersion)
deriving Repr

/-- The lookup `sharedScope[pkg]` over the enumerated entries. -/
def scopeLookup (sc : SharedScope) (pkg : String) : Option (List ScopeVersion) :=
  (sc.entries.find? (fun e => e.1 = pkg)).map (fun e => e.2)

/-- The shared-registry resolver `importShared` from `federation.ts` for an
already-initialized scope `sc`: fail when the package is missing, when it has
no versions, or when the first enumerated version has no factory; otherwise
call the factory and normalize its result through the two unwrap steps. -/
def importShared (sc : SharedScope) (pkg : String) : Except String JVal :=
  match scopeLookup sc pkg with
  | none =>
    .error ("[webllm-chat-kernel] Shared module " ++ pkg ++ " not found in shared scope.")
  | some versions =>
    match versions with
    | [] => .error ("[webllm-chat-kernel] No versions available for " ++ pkg)
    | v :: _ =>
      match v.factory with
      | none => .error ("[webllm-chat-kernel] Module " ++ pkg ++ " has no factory function")
      | some result => .ok (normalizeModule result)

/-- The plugin descriptor `webllmChatKernelPlugin` built by the loaded plugin
module (its `requires`/`optional`/`activate` fields are host-side closures
out of scope here). -/
structure PluginDescriptor where
  id : String
  autoStart : Bool
deriving DecidableEq, Repr

/-- The federated module exports returned by the plugin thunk:
`{__esModule: true, default: plugins}`. -/
structure ModuleExports where
  esModule : Bool
  defaultExport : List PluginDescriptor
deriving DecidableEq, Repr

/-- The concrete plugin descriptor defined by the plugin module. -/
def webllmChatKernelPlugin : PluginDescriptor :=
  { id := "@wiki3-ai/webllm-chat-kernel:plugin", autoStart := true }

/-- The body of the async thunk returned by `container.get` for a recognized
module id: resolve each required shared capability through `importShared`
(a failure rejects the whole load; the optional settings-registry import is
wrapped in try/catch and cannot fail the load), then return the plugin list
shaped as a federated ES module. -/
def loadPluginModule (sc : SharedScope) : Except String ModuleExports := do
  let _baseKernel ← importShared sc "@jupyterlite/kernel"
  let _widget ← importShared sc "@lumino/widgets"
  let _reactWidget ← importShared sc "@jupyterlab/apputils"
  let _react ← importShared sc "react"
  let _htmlSelect ← importShared sc "@jupyterlab/ui-components"
  pure { esModule := true, defaultExport := [webllmChatKernelPlugin] }

/-- `container.get(module)`: recognize exactly `"./index"` and
`"./extension"`, returning the lazy plugin-module thunk (modelled as the
function of the shared scope captured at invocation time); throw the
unknown-module error otherwise. -/
def containerGet (module : String) :
    Except String (SharedScope → Except String ModuleExports) :=
  if module = "./index" ∨ module = "./extension" then
    .ok loadPluginModule
  else
    .error ("[webllm-chat-kernel/federation] Unknown module: " ++ module)

/-- Substring containment, used to state properties of the human-readable
report and confirmation texts. -/
def strContains (s pat : String) : Prop :=
  List.IsInfix pat.data s.data

instance (s pat : String) : Decidable (strContains s pat) :=
  List.decidableInfix pat.data s.data

/-- Sequences of user-driven chat-session operations, for reachability
statements: an explicit model switch or a send with some model behavior. -/
inductive KernelOp
  | opSetModel (name : String)
  | opSend (b : ModelBehavior) (prompt : String)

/-- Apply one operation to the session, keeping the prior state when the
operation throws (as the underlying methods mutate nothing before a throw). -/
def applyOp (settingsDefaultModel : Option String) (s : ChatSession) :
    KernelOp → ChatSession
  | .opSetModel name =>
    match setModel s name with
    | .ok (_, s') => s'
    | .error _ => s
  | .opSend b prompt => (send settingsDefaultModel b s prompt).session

/-- The session reached from a fresh kernel by a sequence of operations. -/
def runOps (settingsDefaultModel : Option String) (ops : List KernelOp) : ChatSession :=
  ops.foldl (applyOp settingsDefaultModel) newSession

/-- The session invariant of the spec's data model: the model handle is
present exactly when `initialized` holds, and likewise for the model name. -/
def sessionInv (s : ChatSession) : Prop :=
  s.model.isSome = s.initialized ∧ s.modelName.isSome = s.initialized

/-- A concrete shared scope providing, in various federated shapes, each
capability the plugin thunk resolves, used to exercise the loader. -/
def demoScope : SharedScope :=
  ⟨[ ("@jupyterlite/kernel", [⟨"0.3.0", some (.obj 1)⟩]),
     ("@lumino/widgets", [⟨"2.3.1", some (.obj 2)⟩]),
     ("@jupyterlab/apputils", [⟨"4.2.0", some (.promise (.obj 3))⟩]),
     ("react", [⟨"18.2.0", some (.func (.obj 4))⟩]),
     ("@jupyterlab/ui-components", [⟨"4.1.0", some (.promise (.func (.obj 5)))⟩]) ]⟩

/-! Helper lemmas shared by several results. -/

theorem data_append (s t : String) : (s ++ t).data = s.data ++ t.data := by
  cases s
  cases t
  rfl

theorem strContains_self (s : String) : strContains s s :=
  List.infix_refl s.data

theorem strContains_append_left (s t pat : String) (h : strContains s pat) :
    strContains (s ++ t) pat := by
  unfold strContains at h ⊢
  rw [data_append]
  exact h.trans ((List.prefix_append s.data t.data).isInfix)

theorem strContains_append_right (s t pat : String) (h : strContains t pat) :
    strContains (s ++ t) pat := by
  unfold strContains at h ⊢
  rw [data_append]
  exact h.trans ((List.suffix_append s.data t.data).isInfix)

theorem streamLoop_spec (l : List String) : ∀ calls reply,
    streamLoop l calls reply = (calls ++ l, l.foldl (· ++ ·) reply) := by
  induction l with
  | nil => intro calls reply; simp [streamLoop]
  | cons c rest ih => intro calls reply; simp [streamLoop, ih]

theorem initializeModel_ok (s : ChatSession) (n : String) (s' : ChatSession)
    (h : initializeModel s n = .ok s') :
    s' = { modelName := some n, model := some { name := n }, initialized := true } := by
  unfold initializeModel at h
  split at h
  · exact absurd h (by simp)
  · exact ((Except.ok.injEq _ _).mp h).symm

theorem sendStream_eq (b : ModelBehavior) (s' : ChatSession) :
    sendStream b s' =
      if b.availability = .unavailable then
        { chunks := [], outcome := .error "Browser does not support WebLLM / WebGPU."
          session := s', modelUsed := s'.model.map ModelHandle.name }
      else
        match b.streamError with
        | some e =>
          { chunks := b.fragments, outcome := .error e, session := s'
            modelUsed := s'.model.map ModelHandle.name }
        | none =>
          { chunks := b.fragments, outcome := .ok (b.fragments.foldl (· ++ ·) "")
            session := s', modelUsed := s'.model.map ModelHandle.name } := by
  unfold sendStream
  cases hb : b.availability <;> cases hs : b.streamError <;> simp [streamLoop_spec]

/-- C1: whenever `send(prompt, onChunk)` resolves with a reply, `onChunk` was
invoked once per stream fragment, in exact arrival order, and the
concatenation of the `onChunk` arguments equals the returned reply (the call
list is part of the already-completed result, so every invocation happens
before the call resolves). -/
theorem send_onChunk_stream (sd : Option String) (b : ModelBehavior)
    (s : ChatSession) (prompt reply : String)
    (h : (send sd b s prompt).outcome = .ok reply) :
    (send sd b s prompt).chunks = b.fragments ∧
    (send sd b s prompt).chunks.foldl (· ++ ·) "" = reply := by
  unfold send at h ⊢
  cases hinit : sendInit sd s with
  | error e => simp [hinit] at h
  | ok s' =>
    simp only [hinit] at h ⊢
    rw [sendStream_eq] at h ⊢
    by_cases ha : b.availability = .unavailable
    · simp [ha] at h
    · cases hs : b.streamError with
      | some e => simp [ha, hs] at h
      | none =>
        simp only [ha, hs, if_neg] at h ⊢
        simp at h ⊢
        exact h

/-- Witness for C1 at the spec's example: a stub model yielding fragments
`["He", "llo"]` gives `onChunk("He")` then `onChunk("llo")` and the reply
`"Hello"`. -/
theorem send_onChunk_stream_witness :
    (send none ⟨.available, ["He", "llo"], none⟩ newSession "hi").chunks = ["He", "llo"] ∧
    (send none ⟨.available, ["He", "llo"], none⟩ newSession "hi").chunks.foldl (· ++ ·) "" = "Hello" :=
  send_onChunk_stream none ⟨.available, ["He", "llo"], none⟩ newSession "hi" "Hello" (by rfl)

/-- C2: for every package whose first enumerated version has a factory, the
resolver returns the factory result normalized through exactly the two
unwrap steps (await if then-able, then invoke if callable), and the four
shapes promise-of-function-of-exports, promise-of-exports,
function-of-exports and plain-exports all normalize to the identical plain
exports object, the plain value passing through unchanged. -/
theorem importShared_two_step (sc : SharedScope) (pkg vk : String) (r : JVal)
    (rest : List ScopeVersion)
    (h : scopeLookup sc pkg = some ({ key := vk, factory := some r } :: rest)) :
    importShared sc pkg = .ok (normalizeModule r) ∧
    (∀ e, normalizeModule (.promise (.func (.obj e))) = .obj e) ∧
    (∀ e, normalizeModule (.promise (.obj e)) = .obj e) ∧
    (∀ e, normalizeModule (.func (.obj e)) = .obj e) ∧
    (∀ e, normalizeModule (.obj e) = .obj e) := by
  refine ⟨?_, fun e => rfl, fun e => rfl, fun e => rfl, fun e => rfl⟩
  unfold importShared
  rw [h]

/-- Witness for C2: a one-package scope whose factory yields a promise of a
module-wrapper function resolves to the plain exports object. -/
theorem importShared_two_step_witness :
    importShared ⟨[("react", [⟨"18.0.0", some (.promise (.func (.obj 7)))⟩])]⟩ "react"
      = .ok (normalizeModule (.promise (.func (.obj 7)))) ∧
    (∀ e, normalizeModule (.promise (.func (.obj e))) = .obj e) ∧
    (∀ e, normalizeModule (.promise (.obj e)) = .obj e) ∧
    (∀ e, normalizeModule (.func (.obj e)) = .obj e) ∧
    (∀ e, normalizeModule (.obj e) = .obj e) :=
  importShared_two_step ⟨[("react", [⟨"18.0.0", some (.promise (.func (.obj 7)))⟩])]⟩
    "react" "18.0.0" (.promise (.func (.obj 7))) [] (by rfl)

theorem filter_err_map_stdout (l : List String) :
    (l.map StreamEvent.stdout).filter isErrorEvent = [] := by
  induction l with
  | nil => rfl
  | cons c rest ih => simp [isErrorEvent, ih]

/-- C3: a `%ai model C` magic with `C` absent from the static catalog fails
with the invalid-model error whose message carries the hint to list models,
and the session keeps its prior model name, handle and initialized flag. -/
theorem invalid_model_magic (sd : Option String) (b : ModelBehavior)
    (s : ChatSession) (code name : String)
    (hp : parseModelCmd (jsTrim code) = some name)
    (hv : isValidWebLLMModel name = false) :
    handleMagic sd s code
      = .error (("Invalid model: " ++ name) ++ "\n\nUse \"%ai model\" to see available models.") ∧
    strContains (("Invalid model: " ++ name) ++ "\n\nUse \"%ai model\" to see available models.")
      "Use \"%ai model\" to see available models." ∧
    (executeRequest sd b s code).session = s ∧
    (executeRequest sd b s code).reply
      = .error "Error" (("Invalid model: " ++ name) ++ "\n\nUse \"%ai model\" to see available models.") [] := by
  have h1 : ¬ jsTrim code = "%ai model" := by
    intro he
    rw [he, show parseModelCmd "%ai model" = (none : Option String) from rfl] at hp
    exact Option.noConfusion hp
  have h2 : ¬ jsTrim code = "%ai models" := by
    intro he
    rw [he, show parseModelCmd "%ai models" = (none : Option String) from rfl] at hp
    exact Option.noConfusion hp
  have hm : handleMagic sd s code
      = .error (("Invalid model: " ++ name) ++ "\n\nUse \"%ai model\" to see available models.") := by
    unfold handleMagic setModel
    simp [h1, h2, hp, hv]
  refine ⟨hm, ?_, ?_, ?_⟩
  · exact strContains_append_right _ _ _ (by decide)
  · unfold executeRequest
    rw [hm]
  · unfold executeRequest
    rw [hm]

/-- Witness for C3: the codename `not-a-model` is rejected with the hint and
an untouched fresh session. -/
theorem invalid_model_magic_witness :
    handleMagic none newSession "%ai model not-a-model"
      = .error (("Invalid model: " ++ "not-a-model") ++ "\n\nUse \"%ai model\" to see available models.") ∧
    strContains (("Invalid model: " ++ "not-a-model") ++ "\n\nUse \"%ai model\" to see available models.")
      "Use \"%ai model\" to see available models." ∧
    (executeRequest none ⟨.available, [], none⟩ newSession "%ai model not-a-model").session = newSession ∧
    (executeRequest none ⟨.available, [], none⟩ newSession "%ai model not-a-model").reply
      = .error "Error" (("Invalid model: " ++ "not-a-model") ++ "\n\nUse \"%ai model\" to see available models.") [] :=
  invalid_model_magic none ⟨.available, [], none⟩ newSession "%ai model not-a-model"
    "not-a-model" (by rfl) (by rfl)

/-- C4: on every non-magic code input whose model path fails (lazy
initialization included), `executeRequest` catches the failure, publishes
exactly one error event carrying ename `Error`, the failure message and an
empty traceback, and returns the matching `status: error` reply instead of
propagating the exception. -/
theorem executeRequest_error_path (sd : Option String) (b : ModelBehavior)
    (s : ChatSession) (code msg : String)
    (hm : handleMagic sd s code = .ok (none, s))
    (hf : (send sd b s code).outcome = .error msg) :
    (executeRequest sd b s code).events.filter isErrorEvent
      = [.executeError "Error" msg []] ∧
    (executeRequest sd b s code).reply = .error "Error" msg [] := by
  have step : executeRequest sd b s code = sendOutcome (send sd b s code) := by
    unfold executeRequest
    rw [hm]
  rw [step]
  unfold sendOutcome
  rw [hf]
  constructor
  · simp [List.filter_append, filter_err_map_stdout, isErrorEvent]
  · rfl

/-- Witness for C4: lazy initialization fails when the settings default is
not a catalog member, and the failure surfaces as the single error event and
the error reply. -/
theorem executeRequest_error_path_witness :
    (executeRequest (some "bogus") ⟨.available, ["x"], none⟩ newSession "tell me a story").events.filter isErrorEvent
      = [.executeError "Error" "Invalid model: bogus. Use %ai model to see available models." []] ∧
    (executeRequest (some "bogus") ⟨.available, ["x"], none⟩ newSession "tell me a story").reply
      = .error "Error" "Invalid model: bogus. Use %ai model to see available models." [] :=
  executeRequest_error_path (some "bogus") ⟨.available, ["x"], none⟩ newSession
    "tell me a story" "Invalid model: bogus. Use %ai model to see available models."
    (by rfl) (by rfl)

theorem loadPluginModule_ok (sc : SharedScope) (m : ModuleExports)
    (hok : loadPluginModule sc = .ok m) :
    m = { esModule := true, defaultExport := [webllmChatKernelPlugin] } := by
  unfold loadPluginModule at hok
  cases e1 : importShared sc "@jupyterlite/kernel" with
  | error e => rw [e1] at hok; simp [bind, Except.bind] at hok
  | ok v1 =>
  rw [e1] at hok
  simp only [bind, Except.bind] at hok
  cases e2 : importShared sc "@lumino/widgets" with
  | error e => rw [e2] at hok; simp at hok
  | ok v2 =>
  rw [e2] at hok
  simp only at hok
  cases e3 : importShared sc "@jupyterlab/apputils" with
  | error e => rw [e3] at hok; simp at hok
  | ok v3 =>
  rw [e3] at hok
  simp only at hok
  cases e4 : importShared sc "react" with
  | error e => rw [e4] at hok; simp at hok
  | ok v4 =>
  rw [e4] at hok
  simp only at hok
  cases e5 : importShared sc "@jupyterlab/ui-components" with
  | error e => rw [e5] at hok; simp at hok
  | ok v5 =>
  rw [e5] at hok
  simp only [pure, Except.pure] at hok
  exact ((Except.ok.injEq _ _).mp hok).symm

/-- C5: `container.get` recognizes exactly the module ids `"./index"` and
`"./extension"`, for which it returns the plugin-module thunk whose every
successful invocation yields exports with the ES-module interop marker set
and a `default` plugin list of length at least one; any other module id
fails with the unknown-module error. -/
theorem containerGet_modules (module : String) :
    ((module = "./index" ∨ module = "./extension") →
      containerGet module = .ok loadPluginModule ∧
      ∀ (sc : SharedScope) (m : ModuleExports), loadPluginModule sc = .ok m →
        m.esModule = true ∧ 1 ≤ m.defaultExport.length) ∧
    (¬ (module = "./index" ∨ module = "./extension") →
      containerGet module
        = .error ("[webllm-chat-kernel/federation] Unknown module: " ++ module)) := by
  constructor
  · intro h
    refine ⟨by unfold containerGet; rw [if_pos h], ?_⟩
    intro sc m hok
    rw [loadPluginModule_ok sc m hok]
    exact ⟨rfl, by simp⟩
  · intro h
    unfold containerGet
    rw [if_neg h]

/-- Witness for C5: the index alias yields the thunk, its invocation on the
demo scope carries the interop marker and one plugin, and a foreign module
id is rejected. -/
theorem containerGet_modules_witness :
    containerGet "./index" = .ok loadPluginModule ∧
    (({ esModule := true, defaultExport := [webllmChatKernelPlugin] } : ModuleExports).esModule = true ∧
      1 ≤ ({ esModule := true, defaultExport := [webllmChatKernelPlugin] } : ModuleExports).defaultExport.length) ∧
    containerGet "./styles" = .error ("[webllm-chat-kernel/federation] Unknown module: " ++ "./styles") :=
  ⟨((containerGet_modules "./index").1 (Or.inl rfl)).1,
   ((containerGet_modules "./index").1 (Or.inl rfl)).2 demoScope _ (by rfl),
   (containerGet_modules "./styles").2 (by decide)⟩

/-- Counterexample to C6 as stated: `%ai model <valid-name>` is recognized
by the interpreter (it returns a result text, emitted as stdout with status
ok), yet it does touch the model — the fresh session's initialized flag
flips to true and a model handle appears. -/
theorem magic_touches_model_cex :
    handleMagic none newSession "%ai model SmolLM2-360M-Instruct-q4f16_1-MLC"
      = .ok (some "Model set to: SmolLM2-360M-Instruct-q4f16_1-MLC",
             { modelName := some "SmolLM2-360M-Instruct-q4f16_1-MLC"
               model := some { name := "SmolLM2-360M-Instruct-q4f16_1-MLC" }
               initialized := true }) ∧
    (executeRequest none { availability := .available, fragments := [], streamError := none }
        newSession "%ai model SmolLM2-360M-Instruct-q4f16_1-MLC").reply = .ok ∧
    (executeRequest none { availability := .available, fragments := [], streamError := none }
        newSession "%ai model SmolLM2-360M-Instruct-q4f16_1-MLC").session.initialized = true ∧
    newSession.initialized = false :=
  ⟨rfl, rfl, rfl, rfl⟩

/-- C6 amended: every recognized magic result is emitted as one stdout
stream event (with a trailing newline) with status ok and the session the
interpreter left behind — unchanged except by a successful model switch; in
particular `%ai help` returns ok and never triggers model initialization. -/
theorem magic_result_stdout (sd : Option String) (b : ModelBehavior)
    (s : ChatSession) (code text : String) (s' : ChatSession)
    (h : handleMagic sd s code = .ok (some text, s')) :
    executeRequest sd b s code
      = { events := [.stdout (text ++ "\n")], reply := .ok, session := s' } ∧
    (executeRequest sd b s "%ai help").reply = .ok ∧
    (executeRequest sd b s "%ai help").session = s := by
  have hh : handleMagic sd s "%ai help" = .ok (some helpText, s) := rfl
  refine ⟨?_, ?_, ?_⟩
  · unfold executeRequest
    rw [h]
  · unfold executeRequest
    rw [hh]
  · unfold executeRequest
    rw [hh]

/-- Witness for the amended C6: the `%ai models` report goes out as one
stdout event with status ok, and `%ai help` leaves the fresh session as it
was. -/
theorem magic_result_stdout_witness :
    executeRequest none { availability := .available, fragments := [], streamError := none }
        newSession "%ai models"
      = { events := [.stdout (magicModelsText none newSession ++ "\n")]
          reply := .ok, session := newSession } ∧
    (executeRequest none { availability := .available, fragments := [], streamError := none }
        newSession "%ai help").reply = .ok ∧
    (executeRequest none { availability := .available, fragments := [], streamError := none }
        newSession "%ai help").session = newSession :=
  magic_result_stdout none { availability := .available, fragments := [], streamError := none }
    newSession "%ai models" (magicModelsText none newSession) newSession (by rfl)

/-- Counterexample to C7 as stated: on a fresh (never-initialized) session,
switching to the valid non-default catalog model returns the confirmation
"Model set to: ...", which does not contain "changed". -/
theorem fresh_setModel_cex :
    setModel newSession "SmolLM2-360M-Instruct-q4f16_1-MLC"
      = .ok ("Model set to: SmolLM2-360M-Instruct-q4f16_1-MLC",
             { modelName := some "SmolLM2-360M-Instruct-q4f16_1-MLC"
               model := some { name := "SmolLM2-360M-Instruct-q4f16_1-MLC" }
               initialized := true }) ∧
    ¬ strContains "Model set to: SmolLM2-360M-Instruct-q4f16_1-MLC" "changed" ∧
    isValidWebLLMModel "SmolLM2-360M-Instruct-q4f16_1-MLC" = true ∧
    "SmolLM2-360M-Instruct-q4f16_1-MLC" ≠ DEFAULT_WEBLLM_MODEL :=
  ⟨rfl, by decide, rfl, by decide⟩

/-- C7 amended: on a fresh session, `setModel` with a valid catalog name
that differs from the default returns a confirmation containing "set"
("changed" appears only when the session was already initialized), and every
subsequent `send` issues its request against the newly set model, not the
default. -/
theorem fresh_setModel_confirmation (sd : Option String) (name : String)
    (hv : isValidWebLLMModel name = true)
    (hd : name ≠ getDefaultModel sd) :
    setModel newSession name
      = .ok ("Model set to: " ++ name,
             { modelName := some name, model := some { name := name }, initialized := true }) ∧
    strContains ("Model set to: " ++ name) "set" ∧
    ∀ (b : ModelBehavior) (prompt : String),
      (send sd b { modelName := some name, model := some { name := name }, initialized := true }
          prompt).modelUsed = some name ∧
      (send sd b { modelName := some name, model := some { name := name }, initialized := true }
          prompt).modelUsed ≠ some (getDefaultModel sd) := by
  have hset : setModel newSession name
      = .ok ("Model set to: " ++ name,
             { modelName := some name, model := some { name := name }, initialized := true }) := by
    unfold setModel initializeModel
    simp [hv, newSession]
  have hused : ∀ (b : ModelBehavior) (prompt : String),
      (send sd b { modelName := some name, model := some { name := name }, initialized := true }
          prompt).modelUsed = some name := by
    intro b prompt
    have hred : send sd b { modelName := some name, model := some { name := name }, initialized := true } prompt
        = sendStream b { modelName := some name, model := some { name := name }, initialized := true } := by
      unfold send sendInit
      simp
    rw [hred, sendStream_eq]
    by_cases ha : b.availability = .unavailable
    · simp [ha, Option.map]
    · cases hs : b.streamError with
      | some e => simp [ha, hs, Option.map]
      | none => simp [ha, hs, Option.map]
  refine ⟨hset, ?_, ?_⟩
  · exact strContains_append_left _ _ _ (by decide)
  · intro b prompt
    refine ⟨hused b prompt, ?_⟩
    rw [hused b prompt]
    intro hc
    exact hd ((Option.some.injEq _ _).mp hc)

/-- Witness for the amended C7: the spec scenario with the real catalog —
fresh session, switch to the non-default first catalog entry, then send. -/
theorem fresh_setModel_confirmation_witness :
    setModel newSession "SmolLM2-360M-Instruct-q4f16_1-MLC"
      = .ok ("Model set to: " ++ "SmolLM2-360M-Instruct-q4f16_1-MLC",
             { modelName := some "SmolLM2-360M-Instruct-q4f16_1-MLC"
               model := some { name := "SmolLM2-360M-Instruct-q4f16_1-MLC" }
               initialized := true }) ∧
    strContains ("Model set to: " ++ "SmolLM2-360M-Instruct-q4f16_1-MLC") "set" ∧
    ∀ (b : ModelBehavior) (prompt : String),
      (send none b { modelName := some "SmolLM2-360M-Instruct-q4f16_1-MLC"
                     model := some { name := "SmolLM2-360M-Instruct-q4f16_1-MLC" }
                     initialized := true } prompt).modelUsed
        = some "SmolLM2-360M-Instruct-q4f16_1-MLC" ∧
      (send none b { modelName := some "SmolLM2-360M-Instruct-q4f16_1-MLC"
                     model := some { name := "SmolLM2-360M-Instruct-q4f16_1-MLC" }
                     initialized := true } prompt).modelUsed
        ≠ some (getDefaultModel none) :=
  fresh_setModel_confirmation none "SmolLM2-360M-Instruct-q4f16_1-MLC" (by rfl) (by decide)

/-- Counterexample to C8 as stated: the catalog has no more than 20 entries,
yet the `%ai model` report still contains the ellipsis line — the code
appends `...` unconditionally. -/
theorem models_report_ellipsis_cex :
    WEBLLM_MODELS.length ≤ 20 ∧
    handleMagic none newSession "%ai model"
      = .ok (some (magicModelsText none newSession), newSession) ∧
    strContains (magicModelsText none newSession) "\n  ...\n" :=
  ⟨by decide, rfl, strContains_append_right _ _ _ (by decide)⟩

/-- C8 amended: the `%ai model` / `%ai models` magic reports the current
model name when initialized and otherwise "not yet initialized" plus the
resolved default, lists at most the first 20 catalog entries, always
includes an ellipsis line regardless of catalog size, and appends the usage
hint. -/
theorem models_report_contents (sd : Option String) (s : ChatSession) :
    handleMagic sd s "%ai model" = .ok (some (magicModelsText sd s), s) ∧
    handleMagic sd s "%ai models" = .ok (some (magicModelsText sd s), s) ∧
    strContains (magicModelsText sd s) "\n  ...\n" ∧
    strContains (magicModelsText sd s) (String.intercalate "\n  " (WEBLLM_MODELS.take 20)) ∧
    strContains (magicModelsText sd s) "Use \"%ai model <name>\" to switch models." ∧
    (s.initialized = false →
      strContains (magicModelsText sd s)
        ("Model not yet initialized. Default: " ++ getDefaultModel sd)) ∧
    (∀ n, s.initialized = true → s.modelName = some n →
      strContains (magicModelsText sd s) ("Current model: " ++ n)) := by
  refine ⟨rfl, rfl, ?_, ?_, ?_, ?_, ?_⟩
  · exact strContains_append_right _ _ _ (by decide)
  · exact strContains_append_right _ _ _ (by decide)
  · exact strContains_append_right _ _ _ (by decide)
  · intro hni
    have hstat : statusOf sd s = "Model not yet initialized. Default: " ++ getDefaultModel sd := by
      unfold statusOf
      rw [hni]
      simp
    unfold magicModelsText
    rw [hstat]
    exact strContains_append_left _ _ _ (strContains_self _)
  · intro n hi hn
    have hstat : statusOf sd s = "Current model: " ++ n := by
      unfold statusOf
      rw [hi, hn]
      simp
    unfold magicModelsText
    rw [hstat]
    exact strContains_append_left _ _ _ (strContains_self _)

/-- Witness for the amended C8: on a fresh session the report carries the
not-yet-initialized status with the resolved hardcoded default. -/
theorem models_report_contents_witness :
    strContains (magicModelsText none newSession)
      ("Model not yet initialized. Default: " ++ getDefaultModel none) :=
  (models_report_contents none newSession).2.2.2.2.2.1 rfl

theorem initializeModel_inv (s : ChatSession) (n : String) (s' : ChatSession)
    (h : initializeModel s n = .ok s') : sessionInv s' := by
  rw [initializeModel_ok s n s' h]
  exact ⟨rfl, rfl⟩

theorem setModel_ok_session (s : ChatSession) (n msg : String) (s' : ChatSession)
    (h : setModel s n = .ok (msg, s')) : initializeModel s n = .ok s' := by
  unfold setModel at h
  split at h
  · exact absurd h (by simp)
  · cases hinit : initializeModel s n with
    | error e =>
      simp only [hinit] at h
      exact absurd h (by simp)
    | ok s'' =>
      simp only [hinit] at h
      split at h <;>
        (injection h with h2
         injection h2 with h3 h4
         exact congrArg Except.ok h4)

theorem sendInit_inv (sd : Option String) (s s' : ChatSession) (hs : sessionInv s)
    (h : sendInit sd s = .ok s') : sessionInv s' := by
  unfold sendInit at h
  split at h
  · exact initializeModel_inv s _ s' h
  · rw [← (Except.ok.injEq _ _).mp h]
    exact hs

theorem sendStream_session (b : ModelBehavior) (s' : ChatSession) :
    (sendStream b s').session = s' := by
  rw [sendStream_eq]
  by_cases ha : b.availability = .unavailable
  · rw [if_pos ha]
  · rw [if_neg ha]
    cases b.streamError <;> rfl

theorem send_session_inv (sd : Option String) (b : ModelBehavior) (s : ChatSession)
    (prompt : String) (hs : sessionInv s) :
    sessionInv ((send sd b s prompt).session) := by
  unfold send
  cases hinit : sendInit sd s with
  | error e => exact hs
  | ok s' =>
    have hs' : sessionInv s' := sendInit_inv sd s s' hs hinit
    show sessionInv ((sendStream b s').session)
    rw [sendStream_session]
    exact hs'

theorem applyOp_inv (sd : Option String) (s : ChatSession) (op : KernelOp)
    (hs : sessionInv s) : sessionInv (applyOp sd s op) := by
  cases op with
  | opSetModel name =>
    show sessionInv (match setModel s name with | .ok (_, s') => s' | .error _ => s)
    cases hsm : setModel s name with
    | error e => exact hs
    | ok p =>
      obtain ⟨msg, s'⟩ := p
      show sessionInv s'
      exact initializeModel_inv s name s' (setModel_ok_session s name msg s' hsm)
  | opSend b prompt => exact send_session_inv sd b s prompt hs

/-- C9: in every session state reachable from a fresh kernel by any sequence
of `setModel` and `send` calls, the model handle is present exactly when the
initialized flag is true, and the model name is set exactly when the
initialized flag is true. -/
theorem session_invariant_reachable (sd : Option String) (ops : List KernelOp) :
    sessionInv (runOps sd ops) := by
  unfold runOps
  have h : ∀ (l : List KernelOp) (s : ChatSession), sessionInv s →
      sessionInv (List.foldl (applyOp sd) s l) := by
    intro l
    induction l with
    | nil => intro s hs; exact hs
    | cons op rest ih =>
      intro s hs
      exact ih (applyOp sd s op) (applyOp_inv sd s op hs)
  exact h ops newSession ⟨rfl, rfl⟩

theorem runSettings_valid (raws : List (Option String)) :
    ∀ m, runSettings raws = some m → isValidWebLLMModel m = true := by
  unfold runSettings
  have h : ∀ (l : List (Option String)) (st : Option String),
      (∀ m, st = some m → isValidWebLLMModel m = true) →
      ∀ m, List.foldl (fun st r => updateSettings r st) st l = some m →
        isValidWebLLMModel m = true := by
    intro l
    induction l with
    | nil => intro st hst m hm; exact hst m hm
    | cons r rest ih =>
      intro st hst m hm
      refine ih (updateSettings r st) ?_ m hm
      intro m' hm'
      cases r with
      | none =>
        simp only [updateSettings] at hm'
        exact hst m' hm'
      | some v =>
        simp only [updateSettings] at hm'
        split at hm'
        · next hcond =>
            rw [← (Option.some.injEq _ _).mp hm']
            exact hcond.2
        · exact hst m' hm'
  exact h raws none (by simp)

/-- C10: the settings-derived default is only ever stored when it is a valid
catalog member and the hardcoded default is itself a catalog member, so
`getDefaultModel` always resolves to a catalog name and the lazy
initialization performed by `send` on an uninitialized session always
succeeds, whatever values the external settings source supplied. -/
theorem default_model_always_valid (raws : List (Option String)) :
    isValidWebLLMModel DEFAULT_WEBLLM_MODEL = true ∧
    isValidWebLLMModel (getDefaultModel (runSettings raws)) = true ∧
    (∀ (b : ModelBehavior) (s : ChatSession) (prompt : String),
      s.initialized = false →
        initializeModel s (getDefaultModel (runSettings raws))
          = .ok { modelName := some (getDefaultModel (runSettings raws))
                  model := some { name := getDefaultModel (runSettings raws) }
                  initialized := true } ∧
        (send (runSettings raws) b s prompt).session.initialized = true) := by
  have hval : isValidWebLLMModel (getDefaultModel (runSettings raws)) = true := by
    unfold getDefaultModel
    cases hr : runSettings raws with
    | none => decide
    | some m => exact runSettings_valid raws m hr
  refine ⟨by decide, hval, ?_⟩
  intro b s prompt hsi
  have hinit : initializeModel s (getDefaultModel (runSettings raws))
      = .ok { modelName := some (getDefaultModel (runSettings raws))
              model := some { name := getDefaultModel (runSettings raws) }
              initialized := true } := by
    unfold initializeModel
    rw [hval]
    simp
  refine ⟨hinit, ?_⟩
  have hstep : sendInit (runSettings raws) s
      = .ok { modelName := some (getDefaultModel (runSettings raws))
              model := some { name := getDefaultModel (runSettings raws) }
              initialized := true } := by
    unfold sendInit
    rw [hsi]
    simp only [Bool.not_false, Bool.true_or, if_pos]
    exact hinit
  unfold send
  rw [hstep]
  show (sendStream b _).session.initialized = true
  rw [sendStream_session]

/-- Witness for C10: even after a bogus settings notification the lazy
initialization on a fresh session succeeds and leaves it initialized. -/
theorem default_model_always_valid_witness :
    initializeModel newSession (getDefaultModel (runSettings [some "bogus-model"]))
      = .ok { modelName := some (getDefaultModel (runSettings [some "bogus-model"]))
              model := some { name := getDefaultModel (runSettings [some "bogus-model"]) }
              initialized := true } ∧
    (send (runSettings [some "bogus-model"])
        { availability := .available, fragments := ["hi"], streamError := none }
        newSession "prompt").session.initialized = true :=
  (default_model_always_valid [some "bogus-model"]).2.2
    { availability := .available, fragments := ["hi"], streamError := none }
    newSession "prompt" rfl

end WebLLMKernel
